import Mathlib

/-
Shallow embedding of the media-analysis gateway server
(`src/network-api/index.js`) and of its sibling server variant
(`src/unnamed/part_000`), together with proofs about the claims of the
specification.  Effectful JavaScript is embedded as pure functions over an
explicit environment (the multipart upload, the backend's answer, a few
external events) and an explicit scratch-file state; machine behaviour that
the handlers observe (JS truthiness, `path.basename`, `path.join`,
`path.extname`, string search) is modelled at the character-list level.
-/

set_option linter.unnecessarySeqFocus false
set_option linter.unreachableTactic false
set_option linter.unusedTactic false

namespace NetworkApi

/-- JSON values, as exchanged with the analysis backends. -/
inductive Json where
  | null : Json
  | bool : Bool → Json
  | num  : Int → Json
  | str  : String → Json
  | arr  : List Json → Json
  | obj  : List (String × Json) → Json
deriving Repr

/-- JavaScript truthiness of a JSON value (`null`, `false`, `0` and `""` are
falsy; arrays and objects are truthy). -/
def truthy : Json → Bool
  | .null => false
  | .bool b => b
  | .num n => n != 0
  | .str s => s != ""
  | .arr _ => true
  | .obj _ => true

/-- JavaScript property access `j.k`: `none` plays the role of `undefined`. -/
def jfield : Json → String → Option Json
  | .obj kvs, k => (kvs.find? (fun kv => kv.1 == k)).map (·.2)
  | _, _ => none

/-- Optional-chained element access `j?.[i]` for an optional JSON value. -/
def jindex : Option Json → Nat → Option Json
  | some (.arr l), i => l.get? i
  | _, _ => none

/-- Is `j` the JSON string `s`?  Models a JavaScript `=== 'literal'` check. -/
def jIsStr (j : Option Json) (s : String) : Bool :=
  match j with
  | some (.str t) => t == s
  | _ => false

/-- `sub` occurs as a contiguous run inside `l` (helper for
`String.prototype.includes`). -/
def hasInfix (l sub : List Char) : Bool :=
  match l with
  | [] => sub.isPrefixOf ([] : List Char)
  | _ :: rest => sub.isPrefixOf l || hasInfix rest sub

/-- JavaScript `s.includes(sub)`. -/
def strIncludes (s sub : String) : Bool := hasInfix s.data sub.data

/-! ### POSIX path functions (Node `path` module, as used by the server) -/

/-- The `/`-separated groups of a character list, empty groups included
(one more group than there are separators). -/
def splitSlash : List Char → List (List Char)
  | [] => [[]]
  | c :: rest =>
    match splitSlash rest with
    | [] => [[c]]
    | g :: gs => if c = '/' then [] :: g :: gs else (c :: g) :: gs

/-- The nonempty `/`-separated components of a path. -/
def pathComps (l : List Char) : List (List Char) :=
  (splitSlash l).filter (fun g => !g.isEmpty)

/-- Trailing separators of a path, dropped before taking the basename. -/
def dropTrail (l : List Char) : List Char := (l.reverse.dropWhile (· == '/')).reverse

/-- The characters after the last separator. -/
def lastComp (l : List Char) : List Char :=
  l.foldl (fun acc c => if c = '/' then [] else acc ++ [c]) []

/-- Node `path.basename` for POSIX paths: the last portion of the path,
ignoring trailing separators. -/
def basename (s : String) : String := ⟨lastComp (dropTrail s.data)⟩

/-- Resolution of `.` and `..` segments in the component list of an absolute
path, as Node path normalization performs it (a leading `..` at the root is
dropped). -/
def normComps (cs : List (List Char)) : List (List Char) :=
  cs.foldl (fun acc c =>
    if c = ['.'] then acc
    else if c = ['.', '.'] then acc.dropLast
    else acc ++ [c]) []

/-- Rendering of a component list, components separated by `/`. -/
def renderTail : List (List Char) → List Char
  | [] => []
  | [c] => c
  | c :: cs => c ++ '/' :: renderTail cs

/-- Node `path.join a b` for an absolute `a`: concatenate and normalize. -/
def pathJoin (a b : String) : String :=
  ⟨'/' :: renderTail (normComps (pathComps a.data ++ pathComps b.data))⟩

/-- Node `path.extname`: the suffix of the basename from its final dot;
empty when there is no dot, when the only dot leads the basename, or for
`".."`. -/
def extname (s : String) : String :=
  let b := (basename s).data
  let after := (b.reverse.takeWhile (· != '.')).reverse
  if b = ['.', '.'] then ""
  else if after.length = b.length then ""
  else if b.length = after.length + 1 then ""
  else ⟨'.' :: after⟩

/-- `path.extname(name) || dflt` — the JS `||` falls to the default exactly
on the empty string. -/
def extnameOr (s dflt : String) : String :=
  let e := extname s
  if e = "" then dflt else e

/-! ### Errors, responses, filesystem state -/

/-- A JavaScript `Error` as the handlers observe it: an optional `code`
(axios network errors carry one) and a `message`. -/
structure JsError where
  code : Option String
  message : String
deriving Repr

/-- An HTTP response: status code and JSON body (`res.status(...).json(...)`;
a bare `res.json(...)` is status 200). -/
structure Resp where
  status : Nat
  body : Json
deriving Repr

/-- The scratch-file state: the set of regular files currently on disk,
by path. -/
abbrev FS := List String

/-- `fs.unlink` on a present file / the effect of a swallowed `unlink`:
remove every entry equal to `p`. -/
def fsRemove (fs : FS) (p : String) : FS := fs.filter (fun q => q != p)

/-! ### The result poller `waitForFile` (src/network-api/index.js:89-102) -/

/-- Outcome of the poller: the file was observed at `elapsedMs`, or the loop
gave up, throwing `errMsg` after `elapsedMs` of waiting. -/
inductive WaitResult where
  | found (elapsedMs : Nat)
  | timedOut (errMsg : String) (elapsedMs : Nat)
deriving Repr, DecidableEq

/-- The check/sleep loop of `waitForFile`: at clock `t` (ms since entry),
while `t < timeoutMs`, test `fileExists t`; on failure sleep `intervalMs`
and retry.  `fuel` bounds the iterations; the wrapper passes enough for the
whole window. -/
def waitLoop (fileExists : Nat → Bool) (filePath : String)
    (timeoutMs intervalMs : Nat) : Nat → Nat → WaitResult
  | 0, t => .timedOut ("Timeout waiting for file: " ++ filePath) t
  | fuel + 1, t =>
    if t < timeoutMs then
      if fileExists t then .found t
      else waitLoop fileExists filePath timeoutMs intervalMs fuel (t + intervalMs)
    else .timedOut ("Timeout waiting for file: " ++ filePath) t

/-- `waitForFile(filePath, timeoutMs, intervalMs)` with the source's
defaults, over an existence history `fileExists`. -/
def waitForFile (fileExists : Nat → Bool) (filePath : String)
    (timeoutMs : Nat := 60000) (intervalMs : Nat := 500) : WaitResult :=
  waitLoop fileExists filePath timeoutMs intervalMs (timeoutMs + 1) 0

/-! ### Health endpoints (src/network-api/index.js:28-87) -/

/-- The timeout test of the audio health catch (index.js:73):
`error.code === 'ECONNABORTED' || error.message.includes('timeout')`. -/
def timeoutLike (e : JsError) : Bool :=
  e.code == some "ECONNABORTED" || strIncludes e.message "timeout"

/-- The timeout test of the variant audio analyze catch (part_000:234):
it additionally accepts `ECONNRESET`. -/
def timeoutLikeP (e : JsError) : Bool :=
  e.code == some "ECONNABORTED" || e.code == some "ECONNRESET" ||
    strIncludes e.message "timeout"

/-- `GET /api/health/image`: probe the vision backend; any failure is
reported as `loading`. -/
def imageHealth (probe : Except JsError Json) : Resp :=
  match probe with
  | .ok d =>
    ⟨200, .obj [("status", .str "ready"), ("message", .str "Image model is ready"),
                ("details", d)]⟩
  | .error e =>
    ⟨200, .obj [("status", .str "loading"), ("message", .str "Image model is loading..."),
                ("error", .str e.message)]⟩

/-- The busy message of the audio health endpoint, count included
(index.js:55). -/
def busyMsg (c : Int) : String :=
  "Audio model is processing (" ++ toString c ++ " file" ++
    (if c > 1 then "s" else "") ++ ")"

/-- `GET /api/health/audio`: short-circuit on a positive in-flight counter,
otherwise probe; a timeout-class probe failure is `busy`, any other failure
`loading`.  The second component records whether the probe was issued. -/
def audioHealth (audioProcessingCount : Int) (probe : Except JsError Json) :
    Resp × Bool :=
  if audioProcessingCount > 0 then
    (⟨200, .obj [("status", .str "busy"),
                 ("message", .str (busyMsg audioProcessingCount)),
                 ("processing", .bool true),
                 ("count", .num audioProcessingCount)]⟩, false)
  else
    match probe with
    | .ok d =>
      (⟨200, .obj [("status", .str "ready"), ("message", .str "Audio model is ready"),
                   ("details", d)]⟩, true)
    | .error e =>
      if timeoutLike e then
        (⟨200, .obj [("status", .str "busy"),
                     ("message", .str "Audio model may be processing"),
                     ("error", .str e.message)]⟩, true)
      else
        (⟨200, .obj [("status", .str "loading"),
                     ("message", .str "Audio model is loading..."),
                     ("error", .str e.message)]⟩, true)

/-! ### The analyze handlers -/

/-- Directory constants (index.js:11-13); the server lives at `/app` inside
its container. -/
def TEST_IMAGES_DIR : String := pathJoin "/app" "test_images"

def TEST_AUDIO_DIR : String := pathJoin "/app" "test_audio"

def OUTPUT_DIR : String := pathJoin "/app" "output"

/-- The multer upload (`req.file`): temp path and client-sent name. -/
structure MFile where
  path : String
  originalname : String
deriving Repr

/-- Optional-chained property access `j?.k`. -/
def jchain (j : Option Json) (k : String) : Option Json :=
  match j with
  | some v => jfield v k
  | none => none

/-- JS truthiness of a possibly-undefined value. -/
def jtruthy (j : Option Json) : Bool := (j.map truthy).getD false

/-- Success marker of the vision backend, index.js:131:
`data.status === 'ok' && data.results?.[0]?.result_path` truthy. -/
def visionOk (d : Json) : Bool :=
  jIsStr (jfield d "status") "ok" &&
    jtruthy (jchain (jindex (jfield d "results") 0) "result_path")

/-- Success marker of the vision backend, part_000:133:
`data.success` truthy and `data.results?.[0]` truthy. -/
def visionOkP (d : Json) : Bool :=
  jtruthy (jfield d "success") && jtruthy (jindex (jfield d "results") 0)

/-- Success marker of the audio backend (index.js:209 / part_000:202):
`data.status === 'completed' && data.results?.[0]` truthy. -/
def audioOk (d : Json) : Bool :=
  jIsStr (jfield d "status") "completed" && jtruthy (jindex (jfield d "results") 0)

/-- Errors the handlers can throw or observe. -/
def enoent (p : String) : JsError :=
  ⟨some "ENOENT", "ENOENT: no such file or directory, unlink '" ++ p ++ "'"⟩

def copyFail (src dst : String) : JsError :=
  ⟨some "ENOENT",
   "ENOENT: no such file or directory, copyfile '" ++ src ++ "' -> '" ++ dst ++ "'"⟩

def invalidVision : JsError := ⟨none, "Invalid response from vision-api"⟩

def invalidAudio : JsError := ⟨none, "Invalid response from audio-api"⟩

def basenameTypeErr : JsError :=
  ⟨none, "The \"path\" argument must be of type string"⟩

def jsonParseErr : JsError := ⟨none, "Unexpected token in JSON"⟩

def waitTimeoutErr (p : String) : JsError :=
  ⟨none, "Timeout waiting for file: " ++ p⟩

/-- Observable outcome of one request: the HTTP response, the final set of
scratch files, the directories whose creation was ensured, whether the
backend was called, the path handed to the poller (image pipeline only),
and the ordered `audioProcessingCount` events (`+1` / `-1`). -/
structure Run where
  resp : Resp
  files : FS
  dirs : List String
  backendCalled : Bool
  polledPath : Option String
  trace : List Int
deriving Repr

/-- Environment of one `POST /analyze` request: the upload, the generated
id, the backend call's outcome, whether the polled file appears within the
wait window, the parse of that file, and whether the working copy was
externally removed during the backend await. -/
structure ImageEnv where
  file : Option MFile
  imageId : String
  backend : Except JsError Json
  fileAppears : Bool
  outputParsed : Option Json
  vanishInput : Bool

/-- Environment of one `POST /analyze-audio` request. -/
structure AudioEnv where
  file : Option MFile
  audioId : String
  inputId : String
  backend : Except JsError Json
  vanishInput : Bool
  vanishJson : Bool

/-- The working-copy path of an image request:
`path.join(TEST_IMAGES_DIR, imageId + (extname(originalname) || '.jpg'))`. -/
def imageInputPath (env : ImageEnv) (f : MFile) : String :=
  pathJoin TEST_IMAGES_DIR (env.imageId ++ extnameOr f.originalname ".jpg")

/-- The working-copy path of an audio request. -/
def audioInputPath (env : AudioEnv) (f : MFile) : String :=
  pathJoin TEST_AUDIO_DIR (env.audioId ++ extnameOr f.originalname ".wav")

/-- The descriptor path of an audio request:
`path.join(TEST_AUDIO_DIR, inputId + '.json')`. -/
def audioJsonPath (env : AudioEnv) : String :=
  pathJoin TEST_AUDIO_DIR (env.inputId ++ ".json")

/-- The output path the image pipeline polls, reads and unlinks:
`path.join(OUTPUT_DIR, path.basename(resultPath))` (index.js:136-137). -/
def imageOutputPath (resultPath : String) : String :=
  pathJoin OUTPUT_DIR (basename resultPath)

/-- The catch block of `POST /analyze` (index.js:149-166): swallowed unlinks
of whatever paths were assigned, then a 500 with `error`/`message`. -/
def imageCatch (e : JsError) (inputFilePath outputFilePath polled : Option String)
    (fs : FS) (dirs : List String) (called : Bool) : Run :=
  let fs1 := match inputFilePath with | some p => fsRemove fs p | none => fs
  let fs2 := match outputFilePath with | some p => fsRemove fs1 p | none => fs1
  { resp := ⟨500, .obj [("error", .str "Failed to process image"),
                        ("message", .str e.message)]⟩,
    files := fs2, dirs := dirs, backendCalled := called, polledPath := polled,
    trace := [] }

/-- `POST /analyze`, index.js:104-167: materialize the upload, submit to the
vision backend, poll the output directory for the basename of the returned
`result_path`, read/parse/unlink, respond. -/
def analyze (env : ImageEnv) (fs0 : FS) : Run :=
  match env.file with
  | none =>
    { resp := ⟨400, .obj [("error", .str "No image file provided")]⟩,
      files := fs0, dirs := [], backendCalled := false, polledPath := none,
      trace := [] }
  | some f =>
    let dirs := [TEST_IMAGES_DIR, OUTPUT_DIR]
    let inputFilePath := imageInputPath env f
    if f.path ∈ fs0 then
      let fs1 := fsRemove (inputFilePath :: fs0) f.path
      match env.backend with
      | .error e => imageCatch e (some inputFilePath) none none fs1 dirs true
      | .ok d =>
        if visionOk d then
          match jchain (jindex (jfield d "results") 0) "result_path" with
          | some (.str resultPath) =>
            let outputFilePath := imageOutputPath resultPath
            let fs2 := if env.vanishInput then fsRemove fs1 inputFilePath else fs1
            if env.fileAppears then
              let fs3 := outputFilePath :: fs2
              match env.outputParsed with
              | some parsedResult =>
                if inputFilePath ∈ fs3 then
                  let fs4 := fsRemove fs3 inputFilePath
                  if outputFilePath ∈ fs4 then
                    { resp := ⟨200, parsedResult⟩,
                      files := fsRemove fs4 outputFilePath, dirs := dirs,
                      backendCalled := true, polledPath := some outputFilePath,
                      trace := [] }
                  else
                    imageCatch (enoent outputFilePath) (some inputFilePath)
                      (some outputFilePath) (some outputFilePath) fs4 dirs true
                else
                  imageCatch (enoent inputFilePath) (some inputFilePath)
                    (some outputFilePath) (some outputFilePath) fs3 dirs true
              | none =>
                imageCatch jsonParseErr (some inputFilePath)
                  (some outputFilePath) (some outputFilePath) fs3 dirs true
            else
              imageCatch (waitTimeoutErr outputFilePath) (some inputFilePath)
                (some outputFilePath) (some outputFilePath) fs2 dirs true
          | _ =>
            imageCatch basenameTypeErr (some inputFilePath) none none fs1 dirs true
        else
          imageCatch invalidVision (some inputFilePath) none none fs1 dirs true
    else
      imageCatch (copyFail f.path inputFilePath) (some inputFilePath) none none
        fs0 dirs false

/-- The catch block of the variant `POST /analyze` (part_000:145-157):
only the input file is cleaned up. -/
def imageCatchP (e : JsError) (inputFilePath : Option String) (fs : FS)
    (dirs : List String) (called : Bool) : Run :=
  let fs1 := match inputFilePath with | some p => fsRemove fs p | none => fs
  { resp := ⟨500, .obj [("error", .str "Failed to process image"),
                        ("message", .str e.message)]⟩,
    files := fs1, dirs := dirs, backendCalled := called, polledPath := none,
    trace := [] }

/-- `POST /analyze`, part_000:104-158: materialize, submit, and return the
backend's inline `results[0]` directly — no polling. -/
def analyzeP (env : ImageEnv) (fs0 : FS) : Run :=
  match env.file with
  | none =>
    { resp := ⟨400, .obj [("error", .str "No image file provided")]⟩,
      files := fs0, dirs := [], backendCalled := false, polledPath := none,
      trace := [] }
  | some f =>
    let dirs := [TEST_IMAGES_DIR]
    let inputFilePath := imageInputPath env f
    if f.path ∈ fs0 then
      let fs1 := fsRemove (inputFilePath :: fs0) f.path
      match env.backend with
      | .error e => imageCatchP e (some inputFilePath) fs1 dirs true
      | .ok d =>
        if visionOkP d then
          let result := (jindex (jfield d "results") 0).getD .null
          let fs2 := if env.vanishInput then fsRemove fs1 inputFilePath else fs1
          if inputFilePath ∈ fs2 then
            { resp := ⟨200, result⟩, files := fsRemove fs2 inputFilePath,
              dirs := dirs, backendCalled := true, polledPath := none,
              trace := [] }
          else
            imageCatchP (enoent inputFilePath) (some inputFilePath) fs2 dirs true
        else
          imageCatchP invalidVision (some inputFilePath) fs1 dirs true
    else
      imageCatchP (copyFail f.path inputFilePath) (some inputFilePath) fs0 dirs false

/-- The catch block of `POST /analyze-audio` (index.js:223-243): decrement
first, then swallowed unlinks, then a 500. -/
def audioCatch (e : JsError) (inputFilePath inputJsonPath : Option String)
    (fs : FS) (dirs : List String) (called : Bool) (tr : List Int) : Run :=
  let tr1 := tr ++ [-1]
  let fs1 := match inputFilePath with | some p => fsRemove fs p | none => fs
  let fs2 := match inputJsonPath with | some p => fsRemove fs1 p | none => fs1
  { resp := ⟨500, .obj [("error", .str "Failed to process audio"),
                        ("message", .str e.message)]⟩,
    files := fs2, dirs := dirs, backendCalled := called, polledPath := none,
    trace := tr1 }

/-- The catch block of the variant `POST /analyze-audio` (part_000:216-245):
decrement, swallowed unlinks, then a 504 for timeout-class errors and a 500
otherwise. -/
def audioCatchP (e : JsError) (inputFilePath inputJsonPath : Option String)
    (fs : FS) (dirs : List String) (called : Bool) (tr : List Int) : Run :=
  let tr1 := tr ++ [-1]
  let fs1 := match inputFilePath with | some p => fsRemove fs p | none => fs
  let fs2 := match inputJsonPath with | some p => fsRemove fs1 p | none => fs1
  let resp : Resp :=
    if timeoutLikeP e then
      ⟨504, .obj [("error", .str "Audio processing timeout"),
                  ("message", .str "The audio file is taking longer than expected to process. Please try a shorter file or try again later.")]⟩
    else
      ⟨500, .obj [("error", .str "Failed to process audio"),
                  ("message", .str e.message)]⟩
  { resp := resp, files := fs2, dirs := dirs, backendCalled := called,
    polledPath := none, trace := tr1 }

/-- `POST /analyze-audio`, index.js:169-244: increment the in-flight
counter, materialize the upload and a JSON descriptor, submit, return
`results[0]`, decrement on every exit. -/
def analyzeAudio (env : AudioEnv) (fs0 : FS) : Run :=
  let tr : List Int := [1]
  match env.file with
  | none =>
    { resp := ⟨400, .obj [("error", .str "No audio file provided")]⟩,
      files := fs0, dirs := [], backendCalled := false, polledPath := none,
      trace := tr ++ [-1] }
  | some f =>
    let dirs := [TEST_AUDIO_DIR, OUTPUT_DIR]
    let inputFilePath := audioInputPath env f
    if f.path ∈ fs0 then
      let fs1 := fsRemove (inputFilePath :: fs0) f.path
      let inputJsonPath := audioJsonPath env
      let fs2 := inputJsonPath :: fs1
      match env.backend with
      | .error e =>
        audioCatch e (some inputFilePath) (some inputJsonPath) fs2 dirs true tr
      | .ok d =>
        if audioOk d then
          let parsedResult := (jindex (jfield d "results") 0).getD .null
          let fs3 := if env.vanishInput then fsRemove fs2 inputFilePath else fs2
          let fs4 := if env.vanishJson then fsRemove fs3 inputJsonPath else fs3
          if inputFilePath ∈ fs4 then
            let fs5 := fsRemove fs4 inputFilePath
            if inputJsonPath ∈ fs5 then
              { resp := ⟨200, parsedResult⟩, files := fsRemove fs5 inputJsonPath,
                dirs := dirs, backendCalled := true, polledPath := none,
                trace := tr ++ [-1] }
            else
              audioCatch (enoent inputJsonPath) (some inputFilePath)
                (some inputJsonPath) fs5 dirs true tr
          else
            audioCatch (enoent inputFilePath) (some inputFilePath)
              (some inputJsonPath) fs4 dirs true tr
        else
          audioCatch invalidAudio (some inputFilePath) (some inputJsonPath)
            fs2 dirs true tr
    else
      audioCatch (copyFail f.path inputFilePath) (some inputFilePath) none
        fs0 dirs false tr

/-- `POST /analyze-audio`, part_000:160-246: identical pipeline, with the
timeout-distinguishing catch block. -/
def analyzeAudioP (env : AudioEnv) (fs0 : FS) : Run :=
  let tr : List Int := [1]
  match env.file with
  | none =>
    { resp := ⟨400, .obj [("error", .str "No audio file provided")]⟩,
      files := fs0, dirs := [], backendCalled := false, polledPath := none,
      trace := tr ++ [-1] }
  | some f =>
    let dirs := [TEST_AUDIO_DIR, OUTPUT_DIR]
    let inputFilePath := audioInputPath env f
    if f.path ∈ fs0 then
      let fs1 := fsRemove (inputFilePath :: fs0) f.path
      let inputJsonPath := audioJsonPath env
      let fs2 := inputJsonPath :: fs1
      match env.backend with
      | .error e =>
        audioCatchP e (some inputFilePath) (some inputJsonPath) fs2 dirs true tr
      | .ok d =>
        if audioOk d then
          let parsedResult := (jindex (jfield d "results") 0).getD .null
          let fs3 := if env.vanishInput then fsRemove fs2 inputFilePath else fs2
          let fs4 := if env.vanishJson then fsRemove fs3 inputJsonPath else fs3
          if inputFilePath ∈ fs4 then
            let fs5 := fsRemove fs4 inputFilePath
            if inputJsonPath ∈ fs5 then
              { resp := ⟨200, parsedResult⟩, files := fsRemove fs5 inputJsonPath,
                dirs := dirs, backendCalled := true, polledPath := none,
                trace := tr ++ [-1] }
            else
              audioCatchP (enoent inputJsonPath) (some inputFilePath)
                (some inputJsonPath) fs5 dirs true tr
          else
            audioCatchP (enoent inputFilePath) (some inputFilePath)
              (some inputJsonPath) fs4 dirs true tr
        else
          audioCatchP invalidAudio (some inputFilePath) (some inputJsonPath)
            fs2 dirs true tr
    else
      audioCatchP (copyFail f.path inputFilePath) (some inputFilePath) none
        fs0 dirs false tr

/-! ### Concrete sample inputs used by witnesses -/

def noFileImageEnv : ImageEnv := ⟨none, "id1", .ok .null, false, none, false⟩

def noFileAudioEnv : AudioEnv := ⟨none, "id2", "id3", .ok .null, false, false⟩

def timeoutProbeErr : JsError := ⟨some "ECONNABORTED", "timeout of 3000ms exceeded"⟩

def connRefusedErr : JsError := ⟨some "ECONNREFUSED", "connect ECONNREFUSED 172.18.0.2:5000"⟩

def tmpUpload : MFile := ⟨"/app/uploads/tmp-1", "clip.wav"⟩

def tmpImageUpload : MFile := ⟨"/app/uploads/tmp-2", "photo.png"⟩

def okVisionData : Json :=
  .obj [("status", .str "ok"),
        ("results", .arr [.obj [("result_path", .str "results/r1.json")]])]

def okImageEnv : ImageEnv :=
  ⟨some tmpImageUpload, "iid-1", .ok okVisionData, true,
    some (.obj [("score", .num 1)]), false⟩

def completedAudioData : Json :=
  .obj [("status", .str "completed"),
        ("results", .arr [.obj [("final_decision", .str "ARTIFICIAL")]])]

def okAudioEnv : AudioEnv :=
  ⟨some tmpUpload, "aid-1", "jid-1", .ok completedAudioData, false, false⟩

def badVisionData : Json :=
  .obj [("status", .str "error"), ("results", .arr [])]

def badImageEnv : ImageEnv :=
  ⟨some tmpImageUpload, "iid-3", .ok badVisionData, false, none, false⟩

def nullFirstAudioData : Json :=
  .obj [("status", .str "completed"), ("results", .arr [.null])]

def nullFirstAudioEnv : AudioEnv :=
  ⟨some tmpUpload, "aid-2", "jid-2", .ok nullFirstAudioData, false, false⟩

def timeoutBackendErr : JsError :=
  ⟨some "ECONNABORTED", "timeout of 120000ms exceeded"⟩

def inlineVisionData : Json :=
  .obj [("status", .str "ok"), ("success", .bool true),
        ("results", .arr [.obj [("label", .str "fake"), ("score", .num 1)]])]

def inlineImageEnv : ImageEnv :=
  ⟨some tmpImageUpload, "iid-2", .ok inlineVisionData, false, none, false⟩

def timeoutAudioEnv : AudioEnv :=
  ⟨some tmpUpload, "aid-3", "jid-3", .error timeoutBackendErr, false, false⟩

def dotdotVisionData : Json :=
  .obj [("status", .str "ok"),
        ("results", .arr [.obj [("result_path", .str "x/..")]])]

def dotdotImageEnv : ImageEnv :=
  ⟨some tmpImageUpload, "iid-4", .ok dotdotVisionData, false, none, false⟩

/-! ## Theorems -/

theorem waitLoop_exit {ex : Nat → Bool} {p : String} {T i : Nat} (t : Nat)
    (h : T ≤ t) :
    ∀ fuel, waitLoop ex p T i fuel t =
      .timedOut ("Timeout waiting for file: " ++ p) t
  | 0 => rfl
  | fuel + 1 => by
    show (if t < T then _ else WaitResult.timedOut _ t) = _
    rw [if_neg (Nat.not_lt.mpr h)]

theorem waitLoop_never {ex : Nat → Bool} {p : String} {T i : Nat}
    (hnever : ∀ t, ex t = false) :
    ∀ fuel t, T ≤ t + fuel * i → t < T →
      ∃ m, waitLoop ex p T i fuel t =
          .timedOut ("Timeout waiting for file: " ++ p) m ∧ T ≤ m ∧ m < T + i := by
  intro fuel
  induction fuel with
  | zero => intro t h1 h2; simp at h1; omega
  | succ n ih =>
    intro t h1 h2
    have hstep : waitLoop ex p T i (n + 1) t =
        if t < T then
          (if ex t then WaitResult.found t else waitLoop ex p T i n (t + i))
        else WaitResult.timedOut ("Timeout waiting for file: " ++ p) t := rfl
    rw [hstep, if_pos h2, if_neg (by simp [hnever t])]
    by_cases h3 : t + i < T
    · refine ih (t + i) ?_ h3
      rw [Nat.succ_mul] at h1; omega
    · exact ⟨t + i, waitLoop_exit (t + i) (by omega) n, by omega, by omega⟩

theorem waitLoop_found {p : String} {T i : Nat} (c K : Nat)
    (hc : c ≤ K * i) (hKT : K * i < T) :
    ∀ fuel t, i ∣ t → t ≤ K * i → K * i < t + fuel * i →
      ∃ m, waitLoop (fun s => decide (c ≤ s)) p T i fuel t = .found m ∧
        c ≤ m ∧ m ≤ K * i ∧ i ∣ m := by
  intro fuel
  induction fuel with
  | zero => intro t _ h2 h3; simp at h3; omega
  | succ n ih =>
    intro t hdvd h2 h3
    have hstep : waitLoop (fun s => decide (c ≤ s)) p T i (n + 1) t =
        if t < T then
          (if decide (c ≤ t) then WaitResult.found t
           else waitLoop (fun s => decide (c ≤ s)) p T i n (t + i))
        else WaitResult.timedOut ("Timeout waiting for file: " ++ p) t := rfl
    rw [hstep, if_pos (by omega : t < T)]
    by_cases hct : c ≤ t
    · rw [if_pos (by simpa using hct)]
      exact ⟨t, rfl, hct, h2, hdvd⟩
    · rw [if_neg (by simpa using hct)]
      obtain ⟨a, rfl⟩ := hdvd
      have hlt : a < K := by
        by_contra hge
        push_neg at hge
        have hKa : K * i ≤ i * a := by
          calc K * i ≤ a * i := Nat.mul_le_mul_right i hge
          _ = i * a := Nat.mul_comm a i
        have : i * a = K * i := Nat.le_antisymm h2 hKa
        omega
      have hnext : i * a + i ≤ K * i := by
        have h4 : a + 1 ≤ K := hlt
        calc i * a + i = (a + 1) * i := by ring
        _ ≤ K * i := Nat.mul_le_mul_right i h4
      refine ih (i * a + i) ⟨a + 1, by ring⟩ hnext ?_
      rw [Nat.succ_mul] at h3; omega

/-- C3 (amended): with a positive poll interval, `waitForFile` polls at the
multiples of `intervalMs`; if the file exists from some time `c` onward and a
poll at `K·intervalMs ≥ c` lands inside the timeout window, it returns
success at the first qualifying poll (no later than `K·intervalMs`); if the
file never appears it throws `Timeout waiting for file: <path>` — an error
carrying the path but not the elapsed duration — after at least `timeoutMs`
and strictly less than `timeoutMs + intervalMs` of waiting. -/
theorem claim3_waitForFile_amended (p : String) (T i : Nat) (hi : 0 < i) :
    (∀ c K, c ≤ K * i → K * i < T →
      ∃ m, waitForFile (fun s => decide (c ≤ s)) p T i = .found m ∧
        c ≤ m ∧ m ≤ K * i ∧ i ∣ m) ∧
    (∀ ex : Nat → Bool, (∀ t, ex t = false) →
      ∃ m, waitForFile ex p T i =
          .timedOut ("Timeout waiting for file: " ++ p) m ∧ T ≤ m ∧ m < T + i) := by
  constructor
  · intro c K hc hKT
    refine waitLoop_found c K hc hKT (T + 1) 0 ⟨0, by ring⟩ (Nat.zero_le _) ?_
    have h1 : T + 1 ≤ (T + 1) * i := Nat.le_mul_of_pos_right _ hi
    omega
  · intro ex hnever
    by_cases hT : 0 < T
    · refine waitLoop_never hnever (T + 1) 0 ?_ hT
      have h1 : T + 1 ≤ (T + 1) * i := Nat.le_mul_of_pos_right _ hi
      omega
    · have hT0 : T = 0 := by omega
      subst hT0
      exact ⟨0, waitLoop_exit 0 (Nat.le_refl 0) 1, Nat.le_refl 0, by omega⟩

/-- Witness for C3 at concrete values: interval 2, file created at time 3,
a successful poll at 2·2 = 4 < 10. -/
theorem claim3_waitForFile_amended_witness :
    0 < 2 ∧ 3 ≤ 2 * 2 ∧ 2 * 2 < 10 ∧
      (∃ m, waitForFile (fun s => decide (3 ≤ s)) "r.json" 10 2 = .found m ∧
        3 ≤ m ∧ m ≤ 2 * 2 ∧ 2 ∣ m) :=
  ⟨by decide, by decide, by decide,
    (claim3_waitForFile_amended "r.json" 10 2 (by decide)).1 3 2 (by decide) (by decide)⟩

/-- Counterexample to C3 as stated: two timed-out waits with different
elapsed durations (4 ms vs 6 ms) throw the identical error value, so the
Timeout error does not carry the elapsed duration. -/
theorem claim3_counterexample :
    waitForFile (fun _ => false) "results.json" 4 2 =
      .timedOut "Timeout waiting for file: results.json" 4 ∧
    waitForFile (fun _ => false) "results.json" 6 2 =
      .timedOut "Timeout waiting for file: results.json" 6 ∧
    (4 : Nat) ≠ 6 :=
  ⟨rfl, rfl, by decide⟩

/-- C9: a request to `POST /analyze` or `POST /analyze-audio` carrying no
uploaded file is answered 400 with an error body, with no directory
created, the file state untouched, and no backend call. -/
theorem claim9_missing_file_400 (ienv : ImageEnv) (aenv : AudioEnv)
    (fs0 fs1 : FS) (hi : ienv.file = none) (ha : aenv.file = none) :
    (analyze ienv fs0).resp =
      ⟨400, .obj [("error", .str "No image file provided")]⟩ ∧
    (analyze ienv fs0).files = fs0 ∧ (analyze ienv fs0).dirs = [] ∧
    (analyze ienv fs0).backendCalled = false ∧
    (analyzeAudio aenv fs1).resp =
      ⟨400, .obj [("error", .str "No audio file provided")]⟩ ∧
    (analyzeAudio aenv fs1).files = fs1 ∧ (analyzeAudio aenv fs1).dirs = [] ∧
    (analyzeAudio aenv fs1).backendCalled = false := by
  obtain ⟨f1, iid, ib, ia, io, iv⟩ := ienv
  obtain ⟨f2, aid, jid, ab, av, aj⟩ := aenv
  simp only at hi ha
  subst hi; subst ha
  exact ⟨rfl, rfl, rfl, rfl, rfl, rfl, rfl, rfl⟩

/-- Witness for C9: a concrete file-less request on each endpoint. -/
theorem claim9_missing_file_400_witness :
    noFileImageEnv.file = none ∧ noFileAudioEnv.file = none ∧
      ((analyze noFileImageEnv []).resp =
        ⟨400, .obj [("error", .str "No image file provided")]⟩ ∧
      (analyze noFileImageEnv []).files = [] ∧
      (analyze noFileImageEnv []).dirs = [] ∧
      (analyze noFileImageEnv []).backendCalled = false ∧
      (analyzeAudio noFileAudioEnv []).resp =
        ⟨400, .obj [("error", .str "No audio file provided")]⟩ ∧
      (analyzeAudio noFileAudioEnv []).files = [] ∧
      (analyzeAudio noFileAudioEnv []).dirs = [] ∧
      (analyzeAudio noFileAudioEnv []).backendCalled = false) :=
  ⟨rfl, rfl, claim9_missing_file_400 noFileImageEnv noFileAudioEnv [] [] rfl rfl⟩

/-- C6 (amended): the audio health endpoint short-circuits to `busy`
(count in message and body, no probe issued) on a positive in-flight
counter, and otherwise probes and maps the outcome three ways
(ready / busy-on-timeout / loading); the image health endpoint probes and
maps the outcome two ways only — any probe failure, timeout-class included,
is reported as `loading`. -/
theorem claim6_health_amended :
    (∀ (c : Int) (probe : Except JsError Json), 0 < c →
      audioHealth c probe =
        (⟨200, .obj [("status", .str "busy"), ("message", .str (busyMsg c)),
                     ("processing", .bool true), ("count", .num c)]⟩, false)) ∧
    (∀ (c : Int) (d : Json), c ≤ 0 →
      audioHealth c (.ok d) =
        (⟨200, .obj [("status", .str "ready"),
                     ("message", .str "Audio model is ready"),
                     ("details", d)]⟩, true)) ∧
    (∀ (c : Int) (e : JsError), c ≤ 0 → timeoutLike e = true →
      audioHealth c (.error e) =
        (⟨200, .obj [("status", .str "busy"),
                     ("message", .str "Audio model may be processing"),
                     ("error", .str e.message)]⟩, true)) ∧
    (∀ (c : Int) (e : JsError), c ≤ 0 → timeoutLike e = false →
      audioHealth c (.error e) =
        (⟨200, .obj [("status", .str "loading"),
                     ("message", .str "Audio model is loading..."),
                     ("error", .str e.message)]⟩, true)) ∧
    (∀ d : Json, imageHealth (.ok d) =
      ⟨200, .obj [("status", .str "ready"),
                  ("message", .str "Image model is ready"),
                  ("details", d)]⟩) ∧
    (∀ e : JsError, imageHealth (.error e) =
      ⟨200, .obj [("status", .str "loading"),
                  ("message", .str "Image model is loading..."),
                  ("error", .str e.message)]⟩) := by
  refine ⟨?_, ?_, ?_, ?_, fun d => rfl, fun e => rfl⟩
  · intro c probe h; simp [audioHealth, h]
  · intro c d h; simp [audioHealth, not_lt.mpr h]
  · intro c e h ht; simp [audioHealth, not_lt.mpr h, ht]
  · intro c e h ht; simp [audioHealth, not_lt.mpr h, ht]

/-- Witness for C6: both counter states and all three probe outcomes at
concrete values. -/
theorem claim6_health_amended_witness :
    (0 : Int) < 2 ∧ (0 : Int) ≤ 0 ∧ timeoutLike timeoutProbeErr = true ∧
    timeoutLike connRefusedErr = false ∧
    audioHealth 2 (.ok .null) =
      (⟨200, .obj [("status", .str "busy"), ("message", .str (busyMsg 2)),
                   ("processing", .bool true), ("count", .num 2)]⟩, false) ∧
    audioHealth 0 (.ok .null) =
      (⟨200, .obj [("status", .str "ready"),
                   ("message", .str "Audio model is ready"),
                   ("details", .null)]⟩, true) ∧
    audioHealth 0 (.error timeoutProbeErr) =
      (⟨200, .obj [("status", .str "busy"),
                   ("message", .str "Audio model may be processing"),
                   ("error", .str timeoutProbeErr.message)]⟩, true) ∧
    audioHealth 0 (.error connRefusedErr) =
      (⟨200, .obj [("status", .str "loading"),
                   ("message", .str "Audio model is loading..."),
                   ("error", .str connRefusedErr.message)]⟩, true) ∧
    imageHealth (.ok .null) =
      ⟨200, .obj [("status", .str "ready"),
                  ("message", .str "Image model is ready"),
                  ("details", .null)]⟩ ∧
    imageHealth (.error connRefusedErr) =
      ⟨200, .obj [("status", .str "loading"),
                  ("message", .str "Image model is loading..."),
                  ("error", .str connRefusedErr.message)]⟩ :=
  ⟨by decide, by decide, by decide, by decide,
    (claim6_health_amended.1 2 (.ok .null) (by decide)),
    (claim6_health_amended.2.1 0 .null (by decide)),
    (claim6_health_amended.2.2.1 0 timeoutProbeErr (by decide) (by decide)),
    (claim6_health_amended.2.2.2.1 0 connRefusedErr (by decide) (by decide)),
    (claim6_health_amended.2.2.2.2.1 .null),
    (claim6_health_amended.2.2.2.2.2 connRefusedErr)⟩

/-- Counterexample to C6 as stated: a timeout-class probe failure on the
image health endpoint is reported as `loading`, not `busy` — the image
endpoint does not apply the claimed three-way mapping. -/
theorem claim6_counterexample :
    timeoutLike timeoutProbeErr = true ∧
    jIsStr (jfield (imageHealth (.error timeoutProbeErr)).body "status")
      "loading" = true ∧
    jIsStr (jfield (imageHealth (.error timeoutProbeErr)).body "status")
      "busy" = false :=
  ⟨by decide, by decide, by decide⟩

theorem foldl_add_eq (l : List Int) : ∀ c : Int, l.foldl (· + ·) c = c + l.sum := by
  induction l with
  | nil => intro c; simp
  | cons a l ih => intro c; simp [List.foldl_cons, ih, List.sum_cons]; ring

/-- C1: on every exit path of either `POST /analyze-audio` handler the
in-flight counter trace is exactly one increment followed by one decrement;
hence any interleaving of the traces of a batch of `n` concurrent audio
requests (a permutation of their concatenation) folds the counter back to
its pre-batch value. -/
theorem claim1_audio_counter_balanced :
    (∀ (env : AudioEnv) (fs0 : FS),
      (analyzeAudio env fs0).trace = [1, -1] ∧
      (analyzeAudioP env fs0).trace = [1, -1]) ∧
    (∀ (l : List Int) (n : Nat) (c : Int),
      l.Perm (List.flatten (List.replicate n [(1 : Int), -1])) →
      l.foldl (· + ·) c = c) := by
  constructor
  · intro env fs0
    obtain ⟨file, aid, iid, backend, vi, vj⟩ := env
    cases file with
    | none => exact ⟨rfl, rfl⟩
    | some f =>
      cases backend with
      | error e =>
        by_cases hm : f.path ∈ fs0 <;>
          simp [analyzeAudio, analyzeAudioP, audioCatch, audioCatchP, hm]
      | ok d =>
        by_cases hm : f.path ∈ fs0 <;> by_cases hok : audioOk d <;>
          simp [analyzeAudio, analyzeAudioP, audioCatch, audioCatchP, hm, hok] <;>
          constructor <;> (repeat' split) <;> simp [audioCatch, audioCatchP]
  · intro l n c hperm
    have hsum : l.sum = 0 := by
      rw [hperm.sum_eq, List.sum_flatten]
      simp
    rw [foldl_add_eq, hsum, add_zero]

/-- Witness for C1: a successful concrete audio request has trace
`[1, -1]`, and the interleaving `[1, 1, -1, -1]` of two such traces folds
any starting counter back to itself. -/
theorem claim1_audio_counter_balanced_witness :
    ((analyzeAudio okAudioEnv [tmpUpload.path]).trace = [1, -1] ∧
      (analyzeAudioP okAudioEnv [tmpUpload.path]).trace = [1, -1]) ∧
    ([1, 1, -1, -1] : List Int).Perm
      (List.flatten (List.replicate 2 [(1 : Int), -1])) ∧
    ([1, 1, -1, -1] : List Int).foldl (· + ·) 5 = 5 :=
  ⟨claim1_audio_counter_balanced.1 okAudioEnv [tmpUpload.path], by decide,
    claim1_audio_counter_balanced.2 [1, 1, -1, -1] 2 5 (by decide)⟩

theorem not_mem_fsRemove_self (fs : FS) (p : String) : p ∉ fsRemove fs p := by
  simp [fsRemove, List.mem_filter]

theorem mem_of_mem_fsRemove {fs : FS} {p x : String} (h : x ∈ fsRemove fs p) :
    x ∈ fs := by
  simp only [fsRemove, List.mem_filter] at h
  exact h.1

theorem not_mem_fsRemove {fs : FS} {p : String} (q : String) (h : p ∉ fs) :
    p ∉ fsRemove fs q := fun hm => h (mem_of_mem_fsRemove hm)

theorem imageCatch_input_not_mem (e : JsError) (q pol : Option String) (fs : FS)
    (dirs : List String) (cl : Bool) (p : String) :
    p ∉ (imageCatch e (some p) q pol fs dirs cl).files := by
  cases q with
  | none => exact not_mem_fsRemove_self fs p
  | some b => exact not_mem_fsRemove b (not_mem_fsRemove_self fs p)

theorem imageCatchP_input_not_mem (e : JsError) (fs : FS) (dirs : List String)
    (cl : Bool) (p : String) :
    p ∉ (imageCatchP e (some p) fs dirs cl).files :=
  not_mem_fsRemove_self fs p

theorem audioCatch_input_not_mem (e : JsError) (jp : Option String) (fs : FS)
    (dirs : List String) (cl : Bool) (tr : List Int) (p : String) :
    p ∉ (audioCatch e (some p) jp fs dirs cl tr).files := by
  cases jp with
  | none => exact not_mem_fsRemove_self fs p
  | some q => exact not_mem_fsRemove q (not_mem_fsRemove_self fs p)

theorem audioCatch_json_not_mem (e : JsError) (ip : Option String) (fs : FS)
    (dirs : List String) (cl : Bool) (tr : List Int) (q : String) :
    q ∉ (audioCatch e ip (some q) fs dirs cl tr).files := by
  cases ip with
  | none => exact not_mem_fsRemove_self fs q
  | some p => exact not_mem_fsRemove_self (fsRemove fs p) q

theorem audioCatchP_input_not_mem (e : JsError) (jp : Option String) (fs : FS)
    (dirs : List String) (cl : Bool) (tr : List Int) (p : String) :
    p ∉ (audioCatchP e (some p) jp fs dirs cl tr).files := by
  cases jp with
  | none => exact not_mem_fsRemove_self fs p
  | some q => exact not_mem_fsRemove q (not_mem_fsRemove_self fs p)

theorem audioCatchP_json_not_mem (e : JsError) (ip : Option String) (fs : FS)
    (dirs : List String) (cl : Bool) (tr : List Int) (q : String) :
    q ∉ (audioCatchP e ip (some q) fs dirs cl tr).files := by
  cases ip with
  | none => exact not_mem_fsRemove_self fs q
  | some p => exact not_mem_fsRemove_self (fsRemove fs p) q

/-- C2: after materialization (the upload is present), the working copy —
and, for audio, the freshly named descriptor JSON — is no longer in the
file state when the response is sent, on the success path and on every
failure path alike (backend error, contract violation, vanished files
during the await, copy failure); the swallowed catch-phase removals make
the cleanup insensitive to a path already being gone. -/
theorem claim2_cleanup (ienv : ImageEnv) (aenv : AudioEnv) (fs0 fs1 : FS)
    (f g : MFile) (hif : ienv.file = some f) (haf : aenv.file = some g)
    (hfresh : audioJsonPath aenv ∉ fs1) :
    imageInputPath ienv f ∉ (analyze ienv fs0).files ∧
    audioInputPath aenv g ∉ (analyzeAudio aenv fs1).files ∧
    audioJsonPath aenv ∉ (analyzeAudio aenv fs1).files := by
  obtain ⟨if_, iid, ib, ifa, iop, iv⟩ := ienv
  obtain ⟨af, aid, jid, ab, av, aj⟩ := aenv
  simp only at hif haf hfresh
  subst hif; subst haf
  refine ⟨?_, ?_, ?_⟩
  · cases ib with
    | error e =>
      by_cases hm : f.path ∈ fs0 <;> simp [analyze, hm] <;>
        first
          | exact imageCatch_input_not_mem _ _ _ _ _ _ _
          | exact not_mem_fsRemove _ (not_mem_fsRemove_self _ _)
          | exact not_mem_fsRemove_self _ _
    | ok d =>
      by_cases hm : f.path ∈ fs0 <;> by_cases hok : visionOk d <;>
        simp [analyze, hm, hok] <;> (repeat' split) <;>
          first
            | exact imageCatch_input_not_mem _ _ _ _ _ _ _
            | exact not_mem_fsRemove _ (not_mem_fsRemove_self _ _)
            | exact not_mem_fsRemove_self _ _
  · cases ab with
    | error e =>
      by_cases hm : g.path ∈ fs1 <;> simp [analyzeAudio, hm] <;>
        first
          | exact audioCatch_input_not_mem _ _ _ _ _ _ _
          | exact not_mem_fsRemove _ (not_mem_fsRemove_self _ _)
          | exact not_mem_fsRemove_self _ _
    | ok d =>
      by_cases hm : g.path ∈ fs1 <;> by_cases hok : audioOk d <;>
        simp [analyzeAudio, hm, hok] <;> (repeat' split) <;>
          first
            | exact audioCatch_input_not_mem _ _ _ _ _ _ _
            | exact not_mem_fsRemove _ (not_mem_fsRemove_self _ _)
            | exact not_mem_fsRemove_self _ _
  · cases ab with
    | error e =>
      by_cases hm : g.path ∈ fs1 <;> simp [analyzeAudio, hm] <;>
        first
          | exact audioCatch_json_not_mem _ _ _ _ _ _ _
          | exact not_mem_fsRemove _ hfresh
          | exact not_mem_fsRemove_self _ _
    | ok d =>
      by_cases hm : g.path ∈ fs1 <;> by_cases hok : audioOk d <;>
        simp [analyzeAudio, hm, hok] <;> (repeat' split) <;>
          first
            | exact audioCatch_json_not_mem _ _ _ _ _ _ _
            | exact not_mem_fsRemove _ hfresh
            | exact not_mem_fsRemove_self _ _
            | exact hfresh

/-- Witness for C2: a concrete successful image run and audio run leave no
working copy or descriptor in the file state. -/
theorem claim2_cleanup_witness :
    okImageEnv.file = some tmpImageUpload ∧ okAudioEnv.file = some tmpUpload ∧
    audioJsonPath okAudioEnv ∉ [tmpUpload.path] ∧
    (imageInputPath okImageEnv tmpImageUpload ∉
        (analyze okImageEnv [tmpImageUpload.path]).files ∧
      audioInputPath okAudioEnv tmpUpload ∉
        (analyzeAudio okAudioEnv [tmpUpload.path]).files ∧
      audioJsonPath okAudioEnv ∉ (analyzeAudio okAudioEnv [tmpUpload.path]).files) :=
  ⟨rfl, rfl, by decide,
    claim2_cleanup okImageEnv okAudioEnv [tmpImageUpload.path] [tmpUpload.path]
      tmpImageUpload tmpUpload rfl rfl (by decide)⟩

/-- C7: a backend response lacking the recognized success marker (image
status not `'ok'` / success flag falsy / audio status not `'completed'` /
missing-or-falsy first result entry) is answered 500 with an
`error`/`message` body, and the materialized input artifacts are removed
before the response is sent — on all four handlers. -/
theorem claim7_contract_violation_500 :
    (∀ (env : ImageEnv) (fs : FS) (f : MFile) (d : Json),
      env.file = some f → f.path ∈ fs → env.backend = .ok d →
      visionOk d = false →
      (analyze env fs).resp =
        ⟨500, .obj [("error", .str "Failed to process image"),
                    ("message", .str "Invalid response from vision-api")]⟩ ∧
      imageInputPath env f ∉ (analyze env fs).files) ∧
    (∀ (env : ImageEnv) (fs : FS) (f : MFile) (d : Json),
      env.file = some f → f.path ∈ fs → env.backend = .ok d →
      visionOkP d = false →
      (analyzeP env fs).resp =
        ⟨500, .obj [("error", .str "Failed to process image"),
                    ("message", .str "Invalid response from vision-api")]⟩ ∧
      imageInputPath env f ∉ (analyzeP env fs).files) ∧
    (∀ (env : AudioEnv) (fs : FS) (g : MFile) (d : Json),
      env.file = some g → g.path ∈ fs → env.backend = .ok d →
      audioOk d = false →
      (analyzeAudio env fs).resp =
        ⟨500, .obj [("error", .str "Failed to process audio"),
                    ("message", .str "Invalid response from audio-api")]⟩ ∧
      audioInputPath env g ∉ (analyzeAudio env fs).files ∧
      audioJsonPath env ∉ (analyzeAudio env fs).files) ∧
    (∀ (env : AudioEnv) (fs : FS) (g : MFile) (d : Json),
      env.file = some g → g.path ∈ fs → env.backend = .ok d →
      audioOk d = false →
      (analyzeAudioP env fs).resp =
        ⟨500, .obj [("error", .str "Failed to process audio"),
                    ("message", .str "Invalid response from audio-api")]⟩ ∧
      audioInputPath env g ∉ (analyzeAudioP env fs).files ∧
      audioJsonPath env ∉ (analyzeAudioP env fs).files) := by
  have hnt : timeoutLikeP invalidAudio = false := by decide
  have hnt2 : timeoutLikeP ⟨none, "Invalid response from audio-api"⟩ = false := by
    decide
  refine ⟨?_, ?_, ?_, ?_⟩ <;>
    · intro env fs f d hf hm hb hbad
      refine ⟨?_, ?_⟩ <;>
        simp [analyze, analyzeP, analyzeAudio, analyzeAudioP, hf, hm, hb, hbad,
          imageCatch, imageCatchP, audioCatch, audioCatchP, invalidVision,
          invalidAudio, hnt, hnt2, not_mem_fsRemove_self,
          not_mem_fsRemove _ (not_mem_fsRemove_self _ _)]

/-- Witness for C7: a concrete backend reply with a wrong status field on
the index.js image handler. -/
theorem claim7_contract_violation_500_witness :
    badImageEnv.file = some tmpImageUpload ∧
    tmpImageUpload.path ∈ [tmpImageUpload.path] ∧
    badImageEnv.backend = .ok badVisionData ∧ visionOk badVisionData = false ∧
    ((analyze badImageEnv [tmpImageUpload.path]).resp =
      ⟨500, .obj [("error", .str "Failed to process image"),
                  ("message", .str "Invalid response from vision-api")]⟩ ∧
    imageInputPath badImageEnv tmpImageUpload ∉
      (analyze badImageEnv [tmpImageUpload.path]).files) :=
  ⟨rfl, by decide, rfl, by decide,
    claim7_contract_violation_500.1 badImageEnv [tmpImageUpload.path]
      tmpImageUpload badVisionData rfl (by decide) rfl (by decide)⟩

/-- C8 (amended): when the audio backend responds `completed` and the first
entry of its results list is truthy, both `POST /analyze-audio` handlers
return exactly that first entry as the 200 response body.  (A falsy first
entry — e.g. the non-empty list `[null]` — is instead rejected with a 500;
see the counterexample.) -/
theorem claim8_first_result_returned (env : AudioEnv) (fs : FS) (g : MFile)
    (d r : Json) (hf : env.file = some g) (hm : g.path ∈ fs)
    (hb : env.backend = .ok d)
    (hst : jIsStr (jfield d "status") "completed" = true)
    (hr : jindex (jfield d "results") 0 = some r) (hrt : truthy r = true)
    (hv1 : env.vanishInput = false) (hv2 : env.vanishJson = false)
    (hne1 : audioInputPath env g ≠ g.path)
    (hne2 : audioJsonPath env ≠ audioInputPath env g) :
    (analyzeAudio env fs).resp = ⟨200, r⟩ ∧
    (analyzeAudioP env fs).resp = ⟨200, r⟩ := by
  have hok : audioOk d = true := by simp [audioOk, hst, hr, jtruthy, hrt]
  constructor <;>
    simp [analyzeAudio, analyzeAudioP, hf, hm, hb, hok, hv1, hv2, hr,
      fsRemove, List.mem_filter, hne1, Ne.symm hne2, hne2]

/-- Witness for C8: the concrete completed reply with one object entry. -/
theorem claim8_first_result_returned_witness :
    okAudioEnv.file = some tmpUpload ∧ tmpUpload.path ∈ [tmpUpload.path] ∧
    okAudioEnv.backend = .ok completedAudioData ∧
    jIsStr (jfield completedAudioData "status") "completed" = true ∧
    jindex (jfield completedAudioData "results") 0 =
      some (.obj [("final_decision", .str "ARTIFICIAL")]) ∧
    truthy (.obj [("final_decision", .str "ARTIFICIAL")]) = true ∧
    okAudioEnv.vanishInput = false ∧ okAudioEnv.vanishJson = false ∧
    audioInputPath okAudioEnv tmpUpload ≠ tmpUpload.path ∧
    audioJsonPath okAudioEnv ≠ audioInputPath okAudioEnv tmpUpload ∧
    ((analyzeAudio okAudioEnv [tmpUpload.path]).resp =
      ⟨200, .obj [("final_decision", .str "ARTIFICIAL")]⟩ ∧
    (analyzeAudioP okAudioEnv [tmpUpload.path]).resp =
      ⟨200, .obj [("final_decision", .str "ARTIFICIAL")]⟩) :=
  ⟨rfl, by decide, rfl, by decide, rfl, by decide, rfl, rfl, by decide, by decide,
    claim8_first_result_returned okAudioEnv [tmpUpload.path] tmpUpload
      completedAudioData (.obj [("final_decision", .str "ARTIFICIAL")])
      rfl (by decide) rfl (by decide) rfl (by decide) rfl rfl
      (by decide) (by decide)⟩

/-- Counterexample to C8 as stated: the backend reply
`{status:"completed", results:[null]}` has a non-empty results list, yet
both handlers answer 500 rather than returning its first entry. -/
theorem claim8_counterexample :
    jIsStr (jfield nullFirstAudioData "status") "completed" = true ∧
    jfield nullFirstAudioData "results" = some (.arr [.null]) ∧
    ([Json.null] : List Json).length = 1 ∧
    (analyzeAudio nullFirstAudioEnv [tmpUpload.path]).resp.status = 500 ∧
    (analyzeAudioP nullFirstAudioEnv [tmpUpload.path]).resp.status = 500 :=
  ⟨by decide, rfl, rfl, rfl, rfl⟩

/-- C4 (amended): when the audio backend call fails with a timeout-class or
connection-reset error, the variant handler (part_000) responds 504 with
error `"Audio processing timeout"`, distinct from its generic 500; the
`src/network-api/index.js` handler instead responds 500
`"Failed to process audio"` for every backend error, timeouts included. -/
theorem claim4_audio_timeout_status (env : AudioEnv) (fs : FS) (g : MFile)
    (e : JsError) (hf : env.file = some g) (hm : g.path ∈ fs)
    (hb : env.backend = .error e) :
    (timeoutLikeP e = true →
      (analyzeAudioP env fs).resp =
        ⟨504, .obj [("error", .str "Audio processing timeout"),
                    ("message", .str "The audio file is taking longer than expected to process. Please try a shorter file or try again later.")]⟩) ∧
    (timeoutLikeP e = false →
      (analyzeAudioP env fs).resp =
        ⟨500, .obj [("error", .str "Failed to process audio"),
                    ("message", .str e.message)]⟩) ∧
    (analyzeAudio env fs).resp =
      ⟨500, .obj [("error", .str "Failed to process audio"),
                  ("message", .str e.message)]⟩ := by
  refine ⟨fun ht => ?_, fun ht => ?_, ?_⟩
  · simp [analyzeAudioP, hf, hm, hb, audioCatchP, ht]
  · simp [analyzeAudioP, hf, hm, hb, audioCatchP, ht]
  · simp [analyzeAudio, hf, hm, hb, audioCatch]

/-- Witness for C4: a concrete `ECONNABORTED` backend failure on both
handlers. -/
theorem claim4_audio_timeout_status_witness :
    timeoutAudioEnv.file = some tmpUpload ∧
    tmpUpload.path ∈ [tmpUpload.path] ∧
    timeoutAudioEnv.backend = .error timeoutBackendErr ∧
    timeoutLikeP timeoutBackendErr = true ∧
    (analyzeAudioP timeoutAudioEnv [tmpUpload.path]).resp =
      ⟨504, .obj [("error", .str "Audio processing timeout"),
                  ("message", .str "The audio file is taking longer than expected to process. Please try a shorter file or try again later.")]⟩ ∧
    (analyzeAudio timeoutAudioEnv [tmpUpload.path]).resp =
      ⟨500, .obj [("error", .str "Failed to process audio"),
                  ("message", .str timeoutBackendErr.message)]⟩ :=
  ⟨rfl, by decide, rfl, by decide,
    (claim4_audio_timeout_status timeoutAudioEnv [tmpUpload.path] tmpUpload
      timeoutBackendErr rfl (by decide) rfl).1 (by decide),
    (claim4_audio_timeout_status timeoutAudioEnv [tmpUpload.path] tmpUpload
      timeoutBackendErr rfl (by decide) rfl).2.2⟩

/-- Counterexample to C4 as stated: on the `src/network-api/index.js`
handler a timeout-class backend failure is answered 500 with error
`"Failed to process audio"` — not 504 with `"Audio processing timeout"`. -/
theorem claim4_counterexample :
    timeoutLikeP timeoutBackendErr = true ∧
    (analyzeAudio timeoutAudioEnv [tmpUpload.path]).resp.status = 500 ∧
    jIsStr (jfield (analyzeAudio timeoutAudioEnv [tmpUpload.path]).resp.body
      "error") "Audio processing timeout" = false ∧
    jIsStr (jfield (analyzeAudio timeoutAudioEnv [tmpUpload.path]).resp.body
      "error") "Failed to process audio" = true :=
  ⟨by decide, rfl, by decide, by decide⟩

/-- C5 (amended): the two completion shapes are split across the two server
variants rather than both handled by one handler.  The `index.js`
`POST /analyze` handles only the pointer shape: given `status:'ok'` and a
`result_path`, it polls the output directory for the pointed-to file, then
reads, parses and returns it; a successful response carrying only inline
results (no `result_path`) is rejected there with a 500 and no poll.  The
variant (part_000) `POST /analyze` handles only the inline shape: given a
truthy success flag it returns `results[0]` directly, with no polling. -/
theorem claim5_completion_shapes :
    (∀ (env : ImageEnv) (fs : FS) (f : MFile) (d : Json) (s : String) (j : Json),
      env.file = some f → f.path ∈ fs → env.backend = .ok d →
      visionOk d = true →
      jchain (jindex (jfield d "results") 0) "result_path" = some (.str s) →
      env.fileAppears = true → env.outputParsed = some j →
      env.vanishInput = false →
      imageInputPath env f ≠ f.path →
      imageOutputPath s ≠ imageInputPath env f →
      (analyze env fs).resp = ⟨200, j⟩ ∧
      (analyze env fs).polledPath = some (imageOutputPath s)) ∧
    (∀ (env : ImageEnv) (fs : FS) (f : MFile) (d : Json),
      env.file = some f → f.path ∈ fs → env.backend = .ok d →
      jtruthy (jchain (jindex (jfield d "results") 0) "result_path") = false →
      (analyze env fs).resp =
        ⟨500, .obj [("error", .str "Failed to process image"),
                    ("message", .str "Invalid response from vision-api")]⟩ ∧
      (analyze env fs).polledPath = none) ∧
    (∀ (env : ImageEnv) (fs : FS) (f : MFile) (d : Json) (r : Json),
      env.file = some f → f.path ∈ fs → env.backend = .ok d →
      visionOkP d = true → jindex (jfield d "results") 0 = some r →
      env.vanishInput = false → imageInputPath env f ≠ f.path →
      (analyzeP env fs).resp = ⟨200, r⟩ ∧ (analyzeP env fs).polledPath = none) := by
  refine ⟨?_, ?_, ?_⟩
  · intro env fs f d s j hf hm hb hok hrp hfa hop hv hne1 hne2
    constructor <;>
      simp [analyze, hf, hm, hb, hok, hrp, hfa, hop, hv, fsRemove,
        List.mem_filter, hne1, hne2, Ne.symm hne2]
  · intro env fs f d hf hm hb hrp
    have hbad : visionOk d = false := by simp [visionOk, hrp]
    constructor <;>
      simp [analyze, hf, hm, hb, hbad, imageCatch, invalidVision]
  · intro env fs f d r hf hm hb hok hr hv hne1
    constructor <;>
      simp [analyzeP, hf, hm, hb, hok, hr, hv, fsRemove, List.mem_filter, hne1]

/-- Witness for C5: a pointer-shape success on index.js (polling the
basename of the returned `result_path`) and an inline-shape success on the
variant handler. -/
theorem claim5_completion_shapes_witness :
    okImageEnv.file = some tmpImageUpload ∧
    tmpImageUpload.path ∈ [tmpImageUpload.path] ∧
    okImageEnv.backend = .ok okVisionData ∧ visionOk okVisionData = true ∧
    jchain (jindex (jfield okVisionData "results") 0) "result_path" =
      some (.str "results/r1.json") ∧
    okImageEnv.fileAppears = true ∧
    okImageEnv.outputParsed = some (.obj [("score", .num 1)]) ∧
    okImageEnv.vanishInput = false ∧
    imageInputPath okImageEnv tmpImageUpload ≠ tmpImageUpload.path ∧
    imageOutputPath "results/r1.json" ≠ imageInputPath okImageEnv tmpImageUpload ∧
    ((analyze okImageEnv [tmpImageUpload.path]).resp =
        ⟨200, .obj [("score", .num 1)]⟩ ∧
      (analyze okImageEnv [tmpImageUpload.path]).polledPath =
        some (imageOutputPath "results/r1.json")) ∧
    inlineImageEnv.backend = .ok inlineVisionData ∧
    visionOkP inlineVisionData = true ∧
    ((analyzeP inlineImageEnv [tmpImageUpload.path]).resp =
        ⟨200, .obj [("label", .str "fake"), ("score", .num 1)]⟩ ∧
      (analyzeP inlineImageEnv [tmpImageUpload.path]).polledPath = none) :=
  ⟨rfl, by decide, rfl, by decide, rfl, rfl, rfl, rfl, by decide, by decide,
    claim5_completion_shapes.1 okImageEnv [tmpImageUpload.path] tmpImageUpload
      okVisionData "results/r1.json" (.obj [("score", .num 1)]) rfl (by decide)
      rfl (by decide) rfl rfl rfl rfl (by decide) (by decide),
    rfl, by decide,
    claim5_completion_shapes.2.2 inlineImageEnv [tmpImageUpload.path]
      tmpImageUpload inlineVisionData
      (.obj [("label", .str "fake"), ("score", .num 1)]) rfl (by decide) rfl
      (by decide) rfl rfl (by decide)⟩

/-- Counterexample to C5 as stated: `index.js`'s `POST /analyze`, given a
successful backend response with inline results but no `result_path`
pointer, responds 500 instead of returning the inline results directly. -/
theorem claim5_counterexample :
    jIsStr (jfield inlineVisionData "status") "ok" = true ∧
    (jindex (jfield inlineVisionData "results") 0).isSome = true ∧
    (analyze (inlineImageEnv) [tmpImageUpload.path]).resp.status = 500 ∧
    (analyze (inlineImageEnv) [tmpImageUpload.path]).polledPath = none :=
  ⟨by decide, by decide, rfl, rfl⟩

theorem slash_not_mem_lastComp (l : List Char) :
    ∀ acc, '/' ∉ acc →
      '/' ∉ l.foldl (fun acc c => if c = '/' then [] else acc ++ [c]) acc := by
  induction l with
  | nil => intro acc h; simpa using h
  | cons c rest ih =>
    intro acc h
    rw [List.foldl_cons]
    by_cases hc : c = '/'
    · simp only [hc, if_pos rfl]
      exact ih [] (by simp)
    · rw [if_neg hc]
      refine ih (acc ++ [c]) ?_
      intro hm
      rcases List.mem_append.mp hm with h1 | h1
      · exact h h1
      · exact hc (List.mem_singleton.mp h1).symm

theorem slash_not_mem_basename (s : String) : '/' ∉ (basename s).data :=
  slash_not_mem_lastComp _ [] (by simp)

theorem splitSlash_ne_nil (l : List Char) : splitSlash l ≠ [] := by
  cases l with
  | nil => simp [splitSlash]
  | cons c rest =>
    rcases h : splitSlash rest with _ | ⟨g, gs⟩
    · simp [splitSlash, h]
    · by_cases hc : c = '/' <;> simp [splitSlash, h, hc]

theorem splitSlash_append_flat : ∀ (k : List Char), '/' ∉ k →
    ∀ (x g : List Char) (gs : List (List Char)), splitSlash x = g :: gs →
      splitSlash (k ++ x) = (k ++ g) :: gs := by
  intro k
  induction k with
  | nil => intro _ x g gs hx; simpa using hx
  | cons c k2 ih =>
    intro hk x g gs hx
    have hc : ¬ c = '/' := fun e => hk (by simp [e])
    have ih2 : splitSlash (k2 ++ x) = (k2 ++ g) :: gs :=
      ih (fun hm => hk (List.mem_cons_of_mem _ hm)) x g gs hx
    show splitSlash (c :: (k2 ++ x)) = ((c :: k2) ++ g) :: gs
    simp only [splitSlash, ih2]
    rw [if_neg hc]
    simp

theorem splitSlash_cons_exists (m : List Char) :
    ∃ g gs, splitSlash m = g :: gs := by
  rcases hh : splitSlash m with _ | ⟨g, gs⟩
  · exact absurd hh (splitSlash_ne_nil m)
  · exact ⟨g, gs, rfl⟩

theorem pathComps_slash (m : List Char) : pathComps ('/' :: m) = pathComps m := by
  obtain ⟨g, gs, h⟩ := splitSlash_cons_exists m
  simp [pathComps, splitSlash, h]

theorem pathComps_comp_slash (k m : List Char) (hk : k ≠ []) (hs : '/' ∉ k) :
    pathComps (k ++ '/' :: m) = k :: pathComps m := by
  obtain ⟨g, gs, h⟩ := splitSlash_cons_exists m
  have h2 : splitSlash ('/' :: m) = [] :: g :: gs := by
    simp [splitSlash, h]
  have h3 : splitSlash (k ++ '/' :: m) = (k ++ []) :: g :: gs :=
    splitSlash_append_flat k hs ('/' :: m) [] (g :: gs) h2
  simp only [pathComps, h3, h, List.append_nil]
  cases k with
  | nil => exact absurd rfl hk
  | cons a t => simp [List.filter]

theorem pathComps_single (k : List Char) (hk : k ≠ []) (hs : '/' ∉ k) :
    pathComps k = [k] := by
  have h3 : splitSlash (k ++ []) = (k ++ []) :: ([] : List (List Char)) :=
    splitSlash_append_flat k hs [] [] [] rfl
  rw [List.append_nil] at h3
  simp only [pathComps, h3]
  cases k with
  | nil => exact absurd rfl hk
  | cons a t => simp [List.filter]

/-- C10 (amended): the file the image pipeline polls for, reads and unlinks
is the output directory joined with `basename(result_path)`; whenever that
basename is not `".."`, the joined path's components extend the output
directory's, so the gateway stays within its own output directory.  A
backend-supplied `result_path` whose basename is `".."` (e.g. `"x/.."`),
however, normalizes to the parent of the output directory — see the
counterexample. -/
theorem claim10_output_path_containment :
    (∀ (env : ImageEnv) (fs : FS) (f : MFile) (d : Json) (s : String),
      env.file = some f → f.path ∈ fs → env.backend = .ok d →
      visionOk d = true →
      jchain (jindex (jfield d "results") 0) "result_path" = some (.str s) →
      (analyze env fs).polledPath = some (imageOutputPath s)) ∧
    (∀ s : String, basename s ≠ ".." →
      (pathComps OUTPUT_DIR.data).isPrefixOf
        (pathComps (imageOutputPath s).data) = true) := by
  constructor
  · intro env fs f d s hf hm hb hok hrp
    simp only [analyze, hf, hm, hb, hok, hrp, if_pos, if_true]
    (repeat' split) <;> simp [imageCatch]
  · intro s hne
    have hb : '/' ∉ (basename s).data := slash_not_mem_basename s
    have hdata : ∀ l : List Char, (String.mk l).data = l := fun _ => rfl
    have hOC : pathComps OUTPUT_DIR.data =
        [['a', 'p', 'p'], ['o', 'u', 't', 'p', 'u', 't']] := rfl
    show (pathComps OUTPUT_DIR.data).isPrefixOf
      (pathComps (pathJoin OUTPUT_DIR (basename s)).data) = true
    rcases hl : (basename s).data with _ | ⟨c, rest⟩
    · simp only [pathJoin, hl]
      decide
    · by_cases h1 : c :: rest = ['.']
      · simp only [pathJoin, hl, h1]
        decide
      · by_cases h2 : c :: rest = ['.', '.']
        · have hdd : (basename s).data = (".." : String).data := by
            rw [hl, h2]
          exact absurd (String.ext hdd) hne
        · have hlne : (c :: rest : List Char) ≠ [] := by simp
          have hsl : '/' ∉ (c :: rest : List Char) := hl ▸ hb
          have hsingle : pathComps (c :: rest) = [c :: rest] :=
            pathComps_single _ hlne hsl
          simp only [pathJoin, hl, hdata, hOC, hsingle]
          have hnorm :
              normComps ([['a', 'p', 'p'], ['o', 'u', 't', 'p', 'u', 't']] ++
                [c :: rest]) =
              [['a', 'p', 'p'], ['o', 'u', 't', 'p', 'u', 't'], c :: rest] := by
            simp [normComps, List.foldl_append, List.foldl_cons, List.foldl_nil,
              h1, h2]
          rw [hnorm]
          rw [show renderTail
              [['a', 'p', 'p'], ['o', 'u', 't', 'p', 'u', 't'], c :: rest] =
              ['a', 'p', 'p'] ++ '/' ::
                (['o', 'u', 't', 'p', 'u', 't'] ++ '/' :: (c :: rest)) from rfl]
          rw [pathComps_slash,
            pathComps_comp_slash _ _ (by simp) (by decide),
            pathComps_comp_slash _ _ (by simp) (by decide), hsingle]
          rw [ List.isPrefixOf_iff_prefix]
          exact ⟨[c :: rest], rfl⟩

/-- Witness for C10: a well-formed `result_path` is polled at the basename
inside the output directory. -/
theorem claim10_output_path_containment_witness :
    okImageEnv.file = some tmpImageUpload ∧
    tmpImageUpload.path ∈ [tmpImageUpload.path] ∧
    okImageEnv.backend = .ok okVisionData ∧ visionOk okVisionData = true ∧
    jchain (jindex (jfield okVisionData "results") 0) "result_path" =
      some (.str "results/r1.json") ∧
    basename "results/r1.json" ≠ ".." ∧
    (analyze okImageEnv [tmpImageUpload.path]).polledPath =
      some (imageOutputPath "results/r1.json") ∧
    (pathComps OUTPUT_DIR.data).isPrefixOf
      (pathComps (imageOutputPath "results/r1.json").data) = true :=
  ⟨rfl, by decide, rfl, by decide, rfl, by decide,
    claim10_output_path_containment.1 okImageEnv [tmpImageUpload.path]
      tmpImageUpload okVisionData "results/r1.json" rfl (by decide) rfl
      (by decide) rfl,
    claim10_output_path_containment.2 "results/r1.json" (by decide)⟩

/-- Counterexample to C10 as stated: the backend-supplied result_path
`"x/.."` has basename `".."`, and the path the gateway polls normalizes to
`"/app"` — the parent of the output directory, outside it. -/
theorem claim10_counterexample :
    basename "x/.." = ".." ∧
    imageOutputPath "x/.." = "/app" ∧
    (analyze dotdotImageEnv [tmpImageUpload.path]).polledPath = some "/app" ∧
    (pathComps OUTPUT_DIR.data).isPrefixOf
      (pathComps (imageOutputPath "x/..").data) = false :=
  ⟨rfl, rfl, rfl, by decide⟩

end NetworkApi
